import Mathlib

/-!
Verification of the pdf2jpeg converter (`pdf_to_jpg_converter.py`, `web_app.py`).

The Python code is shallowly embedded: pure path manipulation is translated
directly; every call into the outside world (filesystem tests, glob expansion,
the poppler rasterizer, PIL's JPEG encoder) is a field of an explicit
environment record, fallible calls returning `Except String` where the library
call can raise.  Python `float` parameters (`scale_factor`) are modelled as
exact rationals, machine `int`s as `ℤ`/`ℕ`.
-/

namespace PdfToJpg

/-- Python `str.lower()`; ASCII folding suffices for the extensions involved. -/
def strLower (s : String) : String := ⟨s.data.map Char.toLower⟩

/-- The characters of `l` strictly after the last occurrence of `c`
(all of `l` when `c` does not occur). -/
def afterLast (c : Char) (l : List Char) : List Char :=
  l.foldl (fun acc ch => if ch = c then [] else acc ++ [ch]) []

/-- The final component of a POSIX path, as in `PurePosixPath.name`. -/
def pathName (p : String) : String := ⟨afterLast '/' p.data⟩

/-- Split a character list at its last dot: `(before, after)`, the dot itself
dropped, `none` when there is no dot (Python `name.rsplit(chr(46), 1)`). -/
def splitLastDot (l : List Char) : Option (List Char × List Char) :=
  if l.contains '.' then
    some (((l.reverse.dropWhile (fun ch => ch ≠ '.')).drop 1).reverse,
          (l.reverse.takeWhile (fun ch => ch ≠ '.')).reverse)
  else none

/-- Model of `PurePosixPath.suffix`: the extension of the final component including its
dot; empty when the final component has no dot, a leading dot only, or a
trailing dot (CPython keeps a suffix only when `0 < i < len(name) - 1`). -/
def pathSuffix (p : String) : String :=
  match splitLastDot (pathName p).data with
  | none => ""
  | some (bef, aft) => if bef = [] ∨ aft = [] then "" else ⟨'.' :: aft⟩

/-- Model of `PurePosixPath.stem`: the final component with `pathSuffix` removed. -/
def pathStem (p : String) : String :=
  match splitLastDot (pathName p).data with
  | none => pathName p
  | some (bef, aft) => if bef = [] ∨ aft = [] then pathName p else ⟨bef⟩

/-- Model of `PurePosixPath.parent` for the simple relative paths the converter builds:
everything before the last slash, `"."` when there is none. -/
def pathParent (p : String) : String :=
  if p.data.contains '/' then
    ⟨((p.data.reverse.dropWhile (fun ch => ch ≠ '/')).drop 1).reverse⟩
  else "."

/-- Model of `str(Path(d) / f)`; `Path` drops a leading `"./"`. -/
def pathJoin (d f : String) : String := if d = "." then f else d ++ "/" ++ f

/-- The filesystem queries `find_pdf_files` delegates to the standard library:
existence tests, `Path.rglob` with the two fixed patterns the code uses, and
`glob.glob`.  Each is an abstract snapshot of the ambient filesystem. -/
structure FS where
  isFile : String → Bool
  isDir : String → Bool
  rglobPdf : String → List String
  rglobPDF : String → List String
  glob : String → List String

/-- The test `chr(42) in str(path) or chr(63) in str(path)`: the wildcard test of the
third branch of `find_pdf_files`. -/
def hasWildcard (s : String) : Bool := s.data.contains '*' || s.data.contains '?'

/-- One iteration of the collection loop of `find_pdf_files`: classify one
input as PDF file / directory / glob pattern / ignored and append its
contribution. -/
def classifyStep (fs : FS) (acc : List String) (input_path : String) : List String :=
  if fs.isFile input_path && (strLower (pathSuffix input_path) == ".pdf") then
    acc ++ [input_path]
  else if fs.isDir input_path then
    acc ++ fs.rglobPdf input_path ++ fs.rglobPDF input_path
  else if hasWildcard input_path then
    acc ++ fs.glob input_path
  else
    acc

/-- Python string comparison: lexicographic on the code-point sequences.
(`String.instLE` is propositionally the same order — see
`String.le_iff_toList_le` — but its comparison function does not reduce in the
kernel, so the sort below uses this equivalent formulation.) -/
def strLe (a b : String) : Prop := a.data ≤ b.data

instance : DecidableRel strLe := fun a b =>
  (inferInstance : Decidable (a.data ≤ b.data))

instance : IsTotal String strLe := ⟨fun a b => le_total a.data b.data⟩

instance : IsTrans String strLe := ⟨fun _ _ _ h h' => le_trans h h'⟩

/-- Source `find_pdf_files(input_paths)` (converter lines 97-122): collect the
per-input contributions, then `sorted(list(set(pdf_files)))` — the unique
sorted listing of the distinct collected paths, here `insertionSort` of
`dedup` under the lexicographic string order. -/
def find_pdf_files (fs : FS) (input_paths : List String) : List String :=
  let pdf_files := input_paths.foldl (classifyStep fs) []
  List.insertionSort strLe pdf_files.dedup

/-- C4. `find_pdf_files` returns a lexicographically sorted, duplicate-free
list, and every member — in particular a path contributed by two overlapping
inputs — occurs in it exactly once. -/
theorem find_pdf_files_sorted_dedup (fs : FS) (input_paths : List String) :
    (find_pdf_files fs input_paths).Sorted (· ≤ ·) ∧
    (find_pdf_files fs input_paths).Nodup ∧
    ∀ p ∈ find_pdf_files fs input_paths, (find_pdf_files fs input_paths).count p = 1 := by
  have hnd : (find_pdf_files fs input_paths).Nodup := by
    unfold find_pdf_files
    exact (List.perm_insertionSort _ _).symm.nodup (List.nodup_dedup _)
  refine ⟨?_, hnd, fun p hp => List.count_eq_one_of_mem hnd hp⟩
  unfold find_pdf_files
  exact (List.sorted_insertionSort strLe _).imp
    (fun h => String.le_iff_toList_le.mpr h)

/-- A filesystem in which `d/a.pdf` is both an explicit file and the sole PDF
under directory `d`: the overlap scenario of C4. -/
def fsOverlap : FS where
  isFile := fun p => p == "d/a.pdf"
  isDir := fun p => p == "d"
  rglobPdf := fun d => if d == "d" then ["d/a.pdf"] else []
  rglobPDF := fun _ => []
  glob := fun _ => []

/-- Witness for C4 at a concrete overlapping input list. -/
theorem find_pdf_files_sorted_dedup_witness :
    "d/a.pdf" ∈ find_pdf_files fsOverlap ["d/a.pdf", "d"] ∧
    (find_pdf_files fsOverlap ["d/a.pdf", "d"]).count "d/a.pdf" = 1 :=
  ⟨by decide, (find_pdf_files_sorted_dedup fsOverlap ["d/a.pdf", "d"]).2.2 _ (by decide)⟩

/-- A filesystem whose working directory holds one text file `a.txt`, so the
pattern `*.txt` glob-expands to it. -/
def fsTxt : FS where
  isFile := fun _ => false
  isDir := fun _ => false
  rglobPdf := fun _ => []
  rglobPDF := fun _ => []
  glob := fun pat => if pat == "*.txt" then ["a.txt"] else []

/-- Counterexample to C5: the wildcard branch of `find_pdf_files` extends the
result with `glob.glob(pattern)` unfiltered, so the glob input `*.txt` puts
`a.txt` — which has neither a `.pdf` nor a `.PDF` suffix — into the result. -/
theorem find_pdf_files_glob_non_pdf :
    "a.txt" ∈ find_pdf_files fsTxt ["*.txt"] ∧
    pathSuffix "a.txt" ≠ ".pdf" ∧ pathSuffix "a.txt" ≠ ".PDF" := by
  decide

/-- An input lands in the wildcard branch of `find_pdf_files`: it is not an
existing `.pdf` file, not a directory, and contains a wildcard character. -/
def isGlobBranch (fs : FS) (ip : String) : Bool :=
  !(fs.isFile ip && (strLower (pathSuffix ip) == ".pdf")) && !fs.isDir ip && hasWildcard ip

/-- All paths the wildcard branch contributes over a run of `find_pdf_files`. -/
def globContrib (fs : FS) (input_paths : List String) : List String :=
  ((input_paths.filter (isGlobBranch fs)).map fs.glob).flatten

/-- Any member of the collection loop's accumulator came from the initial
accumulator or from one input's branch contribution. -/
theorem mem_foldl_classifyStep (fs : FS) :
    ∀ (l : List String) (acc : List String) (p : String),
      p ∈ l.foldl (classifyStep fs) acc →
      p ∈ acc ∨ ∃ ip ∈ l,
        (p = ip ∧ strLower (pathSuffix ip) = ".pdf") ∨
        p ∈ fs.rglobPdf ip ∨ p ∈ fs.rglobPDF ip ∨
        (isGlobBranch fs ip = true ∧ p ∈ fs.glob ip) := by
  intro l
  induction l with
  | nil => intro acc p hp; exact Or.inl hp
  | cons ip l ih =>
    intro acc p hp
    rw [List.foldl_cons] at hp
    rcases ih _ p hp with hstep | ⟨ip', hip', hcase⟩
    · unfold classifyStep at hstep
      by_cases hfile : (fs.isFile ip && (strLower (pathSuffix ip) == ".pdf")) = true
      · rw [if_pos hfile] at hstep
        rcases List.mem_append.mp hstep with h | h
        · exact Or.inl h
        · refine Or.inr ⟨ip, List.mem_cons_self _ _, Or.inl ⟨List.mem_singleton.mp h, ?_⟩⟩
          exact beq_iff_eq.mp (Bool.and_elim_right hfile)
      · rw [if_neg hfile] at hstep
        by_cases hdir : fs.isDir ip = true
        · rw [if_pos hdir] at hstep
          rcases List.mem_append.mp hstep with h | h
          · rcases List.mem_append.mp h with h' | h'
            · exact Or.inl h'
            · exact Or.inr ⟨ip, List.mem_cons_self _ _, Or.inr (Or.inl h')⟩
          · exact Or.inr ⟨ip, List.mem_cons_self _ _, Or.inr (Or.inr (Or.inl h))⟩
        · rw [if_neg hdir] at hstep
          by_cases hw : hasWildcard ip = true
          · rw [if_pos hw] at hstep
            rcases List.mem_append.mp hstep with h | h
            · exact Or.inl h
            · refine Or.inr ⟨ip, List.mem_cons_self _ _, Or.inr (Or.inr (Or.inr ⟨?_, h⟩))⟩
              simp only [isGlobBranch, Bool.and_eq_true, Bool.not_eq_true']
              exact ⟨⟨Bool.not_eq_true _ ▸ (Bool.eq_false_iff.mpr hfile),
                Bool.eq_false_iff.mpr hdir⟩, hw⟩
          · rw [if_neg hw] at hstep
            exact Or.inl hstep
    · exact Or.inr ⟨ip', List.mem_cons_of_mem _ hip', hcase⟩

/-- C5 amended: provided `Path.rglob` with patterns `*.pdf` / `*.PDF` only
returns paths carrying that suffix (true of `pathlib`), every path returned by
`find_pdf_files` either has a suffix lowercasing to `.pdf` or was contributed
by the unfiltered glob expansion of a wildcard input. -/
theorem find_pdf_files_pdf_or_glob (fs : FS) (input_paths : List String)
    (hpdf : ∀ d q, q ∈ fs.rglobPdf d → pathSuffix q = ".pdf")
    (hPDF : ∀ d q, q ∈ fs.rglobPDF d → pathSuffix q = ".PDF") :
    ∀ p ∈ find_pdf_files fs input_paths,
      strLower (pathSuffix p) = ".pdf" ∨ p ∈ globContrib fs input_paths := by
  intro p hp
  have hraw : p ∈ input_paths.foldl (classifyStep fs) [] := by
    unfold find_pdf_files at hp
    exact List.mem_dedup.mp ((List.perm_insertionSort strLe _).mem_iff.mp hp)
  rcases mem_foldl_classifyStep fs input_paths [] p hraw with h | ⟨ip, hip, hcase⟩
  · exact absurd h (List.not_mem_nil p)
  rcases hcase with ⟨rfl, hs⟩ | h | h | ⟨hb, hg⟩
  · exact Or.inl hs
  · refine Or.inl ?_
    rw [hpdf ip p h]; decide
  · refine Or.inl ?_
    rw [hPDF ip p h]; decide
  · exact Or.inr (List.mem_flatten.mpr
      ⟨fs.glob ip, List.mem_map_of_mem _ (List.mem_filter.mpr ⟨hip, hb⟩), hg⟩)

/-- Witness for the amended C5 on the concrete overlap filesystem. -/
theorem find_pdf_files_pdf_or_glob_witness :
    strLower (pathSuffix "d/a.pdf") = ".pdf" ∨
      "d/a.pdf" ∈ globContrib fsOverlap ["d/a.pdf", "d"] := by
  refine find_pdf_files_pdf_or_glob fsOverlap ["d/a.pdf", "d"] ?_ ?_ "d/a.pdf" (by decide)
  · intro d q hq
    unfold fsOverlap at hq
    simp only at hq
    by_cases hd : (d == "d") = true
    · rw [if_pos hd] at hq
      rw [List.mem_singleton.mp hq]; decide
    · rw [if_neg hd] at hq
      exact absurd hq (List.not_mem_nil q)
  · intro d q hq
    exact absurd hq (List.not_mem_nil q)

/-- Python `int()` on a real value: truncation toward zero.  (Defined via the
computable `Rat.floor`/`Rat.ceil`.) -/
def pyInt (q : ℚ) : ℤ := if 0 ≤ q then q.floor else q.ceil

/-- The computable `Rat.floor` agrees with the mathematical floor. -/
theorem rat_floor_eq_intFloor (q : ℚ) : q.floor = ⌊q⌋ := by
  rw [Rat.floor_def', Rat.floor_def]

/-- On nonnegative arguments Python `int()` is the mathematical floor. -/
theorem pyInt_eq_floor (q : ℚ) (hq : 0 ≤ q) : pyInt q = ⌊q⌋ := by
  unfold pyInt
  rw [if_pos hq]
  exact rat_floor_eq_intFloor q

/-- A decoded bitmap page, reduced to its pixel dimensions (`PIL.Image.size`). -/
structure Page where
  width : ℕ
  height : ℕ
deriving DecidableEq

/-- The outside-world calls `pdf_first_page_to_jpg` makes, each fallible one
returning `Except String` where the library call can raise (the `String` is
`str(e)` of the exception).  `convert_from_path` is poppler's first-page
rasterization at the given dpi; `save` is PIL's resize-to-the-two-given-pixel-
dimensions followed by the JPEG encode to the given path at the given quality
(PIL's `resize` returns an image of exactly the requested size, so the saved
JPEG has exactly the dimensions passed here). -/
structure ConvEnv where
  pathExists : String → Bool
  mkdirs : String → Except String Unit
  convert_from_path : String → ℤ → Except String (List Page)
  save : ℤ → ℤ → String → ℤ → Except String Unit

/-- Converter lines 66-92, after the output directory is settled: derive
`output_path = output_dir / (stem + ".jpg")`, rasterize the first page, fail
on an empty page list, resize by `int(dim * scale_factor)` per dimension and
save.  The source's local variables `output_path`, `new_width`, `new_height`
(lines 66, 86-87) are inlined at their use sites. -/
def convert_tail (env : ConvEnv) (pdf_path : String) (out_dir : String)
    (dpi quality : ℤ) (scale_factor : ℚ) : Except String (Bool × String × String) :=
  match env.convert_from_path pdf_path dpi with
  | .error e => .error e
  | .ok [] => .ok (false, pdf_path, "No pages found in PDF")
  | .ok (first_page :: _) =>
    match env.save (pyInt ((first_page.width : ℚ) * scale_factor))
        (pyInt ((first_page.height : ℚ) * scale_factor))
        (pathJoin out_dir (pathStem pdf_path ++ ".jpg")) quality with
    | .error e => .error e
    | .ok _ => .ok (true, pdf_path, pathJoin out_dir (pathStem pdf_path ++ ".jpg"))

/-- The body of the `try:` block of `pdf_first_page_to_jpg` (converter lines
48-92), with the exception flow explicit: `.error e` is an uncaught exception
with message `e` reaching the end of the block.  Validation, output-directory
choice (the `mkdir` can raise), then `convert_tail`. -/
def convert_body (env : ConvEnv) (pdf_path : String) (output_dir : Option String)
    (dpi quality : ℤ) (scale_factor : ℚ) : Except String (Bool × String × String) :=
  if env.pathExists pdf_path = false then
    .ok (false, pdf_path, "File not found: " ++ pdf_path)
  else if strLower (pathSuffix pdf_path) ≠ ".pdf" then
    .ok (false, pdf_path, "Not a PDF file")
  else
    match output_dir with
    | none => convert_tail env pdf_path (pathParent pdf_path) dpi quality scale_factor
    | some d =>
      match env.mkdirs d with
      | .error e => .error e
      | .ok _ => convert_tail env pdf_path d dpi quality scale_factor

/-- Source `pdf_first_page_to_jpg` (converter lines 33-95): run the `try:` body; the
`except Exception` handler turns any escaping exception into the failure
triple `(False, str(pdf_path), str(e))`. -/
def pdf_first_page_to_jpg (env : ConvEnv) (pdf_path : String)
    (output_dir : Option String) (dpi quality : ℤ) (scale_factor : ℚ) :
    Bool × String × String :=
  match convert_body env pdf_path output_dir dpi quality scale_factor with
  | .ok r => r
  | .error e => (false, pdf_path, e)

/-- Every `.ok` outcome of `convert_tail` carries the source path as its
second component. -/
theorem convert_tail_path (env : ConvEnv) (pdf_path out_dir : String)
    (dpi quality : ℤ) (scale_factor : ℚ) :
    ∀ r, convert_tail env pdf_path out_dir dpi quality scale_factor = .ok r →
      r.2.1 = pdf_path := by
  intro r h
  unfold convert_tail at h
  cases hpg : env.convert_from_path pdf_path dpi with
  | error e => rw [hpg] at h; cases h
  | ok pages =>
    rw [hpg] at h
    cases pages with
    | nil => cases h; rfl
    | cons fp rest =>
      dsimp only at h
      cases hsv : env.save (pyInt ((fp.width : ℚ) * scale_factor))
          (pyInt ((fp.height : ℚ) * scale_factor))
          (pathJoin out_dir (pathStem pdf_path ++ ".jpg")) quality with
      | error e => rw [hsv] at h; cases h
      | ok u => rw [hsv] at h; cases h; rfl

/-- Every `.ok` outcome of the body carries the source path as its second
component. -/
theorem convert_body_path (env : ConvEnv) (pdf_path : String)
    (output_dir : Option String) (dpi quality : ℤ) (scale_factor : ℚ) :
    ∀ r, convert_body env pdf_path output_dir dpi quality scale_factor = .ok r →
      r.2.1 = pdf_path := by
  intro r h
  unfold convert_body at h
  split at h
  · cases h; rfl
  split at h
  · cases h; rfl
  cases output_dir with
  | none => exact convert_tail_path env pdf_path _ dpi quality scale_factor r h
  | some d =>
    dsimp only at h
    cases hmk : env.mkdirs d with
    | error e => rw [hmk] at h; cases h
    | ok u =>
      rw [hmk] at h
      exact convert_tail_path env pdf_path d dpi quality scale_factor r h

/-- C3. `pdf_first_page_to_jpg` never lets an exception reach its caller: the
result is always a triple whose second component is the input path, and
whenever any step of the body raises (the body evaluates to `.error e`), the
returned triple is the failure outcome `(False, path, e)` carrying the
exception's message. -/
theorem pdf_first_page_to_jpg_no_raise (env : ConvEnv) (pdf_path : String)
    (output_dir : Option String) (dpi quality : ℤ) (scale_factor : ℚ) :
    ((pdf_first_page_to_jpg env pdf_path output_dir dpi quality scale_factor).2.1
        = pdf_path) ∧
    ∀ e, convert_body env pdf_path output_dir dpi quality scale_factor = .error e →
      pdf_first_page_to_jpg env pdf_path output_dir dpi quality scale_factor
        = (false, pdf_path, e) := by
  constructor
  · unfold pdf_first_page_to_jpg
    split
    · exact convert_body_path env pdf_path output_dir dpi quality scale_factor _
        (by assumption)
    · rfl
  · intro e he
    unfold pdf_first_page_to_jpg
    rw [he]

/-- An environment whose rasterizer raises with message `boom`. -/
def envBoom : ConvEnv where
  pathExists := fun _ => true
  mkdirs := fun _ => .ok ()
  convert_from_path := fun _ _ => .error "boom"
  save := fun _ _ _ _ => .ok ()

/-- Witness for C3: a decode exception is returned as a failure outcome. -/
theorem pdf_first_page_to_jpg_no_raise_witness :
    pdf_first_page_to_jpg envBoom "a.pdf" none 200 95 (6/10)
      = (false, "a.pdf", "boom") :=
  (pdf_first_page_to_jpg_no_raise envBoom "a.pdf" none 200 95 (6/10)).2 "boom" rfl

/-- C6. On a non-existent input path the converter returns exactly
`(False, "missing.pdf", "File not found: missing.pdf")` — in particular for
the claim's parameters `dpi=200, quality=95, scale_factor=0.6`. -/
theorem convert_missing_file (env : ConvEnv) (dpi quality : ℤ) (s : ℚ)
    (hmissing : env.pathExists "missing.pdf" = false) :
    pdf_first_page_to_jpg env "missing.pdf" none dpi quality s =
      (false, "missing.pdf", "File not found: missing.pdf") := by
  unfold pdf_first_page_to_jpg convert_body
  rw [hmissing]
  rfl

/-- An environment in which no path exists. -/
def envMissing : ConvEnv where
  pathExists := fun _ => false
  mkdirs := fun _ => .ok ()
  convert_from_path := fun _ _ => .error "File not found"
  save := fun _ _ _ _ => .ok ()

/-- Witness for C6 at the claim's concrete parameters. -/
theorem convert_missing_file_witness :
    pdf_first_page_to_jpg envMissing "missing.pdf" none 200 95 (6/10) =
      (false, "missing.pdf", "File not found: missing.pdf") :=
  convert_missing_file envMissing 200 95 (6/10) rfl

/-- C2. When the rasterizer yields a first page of size `w × h` and the
conversion succeeds, the image handed to the JPEG encoder — hence the written
JPEG — has width `⌊w * scale_factor⌋` and height `⌊h * scale_factor⌋`, the
floor taken independently in each dimension. -/
theorem convert_scales_by_floor (env : ConvEnv) (p : String) (od : Option String)
    (dpi quality : ℤ) (s : ℚ) (w h : ℕ) (rest : List Page) (out : String)
    (hs1 : 1/10 < s) (hs2 : s ≤ 2)
    (hpages : env.convert_from_path p dpi = .ok (⟨w, h⟩ :: rest))
    (hres : pdf_first_page_to_jpg env p od dpi quality s = (true, p, out)) :
    env.save ⌊(w : ℚ) * s⌋ ⌊(h : ℚ) * s⌋ out quality = .ok () := by
  have hs0 : (0 : ℚ) < s := lt_trans (by norm_num) hs1
  have hw0 : (0 : ℚ) ≤ (w : ℚ) * s := mul_nonneg (Nat.cast_nonneg w) (le_of_lt hs0)
  have hh0 : (0 : ℚ) ≤ (h : ℚ) * s := mul_nonneg (Nat.cast_nonneg h) (le_of_lt hs0)
  rw [← pyInt_eq_floor _ hw0, ← pyInt_eq_floor _ hh0]
  have tail : ∀ out_dir,
      convert_tail env p out_dir dpi quality s = .ok (true, p, out) →
      env.save (pyInt ((w : ℚ) * s)) (pyInt ((h : ℚ) * s)) out quality = .ok () := by
    intro out_dir htail
    unfold convert_tail at htail
    rw [hpages] at htail
    dsimp only at htail
    cases hsv : env.save (pyInt ((w : ℚ) * s)) (pyInt ((h : ℚ) * s))
        (pathJoin out_dir (pathStem p ++ ".jpg")) quality with
    | error e => rw [hsv] at htail; cases htail
    | ok u =>
      rw [hsv] at htail
      cases htail
      cases u
      exact hsv
  unfold pdf_first_page_to_jpg at hres
  cases hcb : convert_body env p od dpi quality s with
  | error e =>
    rw [hcb] at hres
    exact absurd (congrArg Prod.fst hres) (by simp)
  | ok r =>
    rw [hcb] at hres
    subst hres
    unfold convert_body at hcb
    split at hcb
    · cases hcb
    split at hcb
    · cases hcb
    cases od with
    | none => exact tail _ hcb
    | some d =>
      dsimp only at hcb
      cases hmk : env.mkdirs d with
      | error e => rw [hmk] at hcb; cases hcb
      | ok u =>
        rw [hmk] at hcb
        exact tail d hcb

/-- An environment that renders a 100 × 50 first page and accepts every save. -/
def envPage : ConvEnv where
  pathExists := fun _ => true
  mkdirs := fun _ => .ok ()
  convert_from_path := fun _ _ => .ok [⟨100, 50⟩]
  save := fun _ _ _ _ => .ok ()

/-- Witness for C2: a 100 × 50 page at `scale_factor = 0.6` is encoded at
`60 × 30`. -/
theorem convert_scales_by_floor_witness :
    envPage.save ⌊(100 : ℚ) * (6/10)⌋ ⌊(50 : ℚ) * (6/10)⌋ "a.jpg" 95 = .ok () ∧
    (⌊(100 : ℚ) * (6/10)⌋ = 60 ∧ ⌊(50 : ℚ) * (6/10)⌋ = 30) := by
  constructor
  · exact convert_scales_by_floor envPage "a.pdf" none 200 95 (6/10) 100 50 [] "a.jpg"
      (by norm_num) (by norm_num) rfl rfl
  · constructor
    · norm_num
    · norm_num

/-- A `ConversionOutcome` triple `(success, pdf_path, result_path_or_error)`
as returned by `pdf_first_page_to_jpg`. -/
abbrev Outcome := Bool × String × String

/-- The summary dict built by `process_pdfs_bulk` (converter lines 144 and
188-194).  `elapsed_time` is optional because the empty-batch return at line
144 has no such key. -/
structure Summary where
  total : ℕ
  successful : ℕ
  failed : ℕ
  results : List Outcome
  elapsed_time : Option ℚ
deriving DecidableEq

/-- One iteration of the `as_completed` collection loop (converter lines
166-175): append the completed outcome to `results` and bump the
successful/failed counter. -/
def bulk_step (conv : String → Outcome) (st : List Outcome × ℕ × ℕ)
    (pdf_file : String) : List Outcome × ℕ × ℕ :=
  if (conv pdf_file).1 then (st.1 ++ [conv pdf_file], st.2.1 + 1, st.2.2)
  else (st.1 ++ [conv pdf_file], st.2.1, st.2.2 + 1)

/-- The collection loop appends one outcome per completed file and counts
successes and failures. -/
theorem bulk_step_foldl (conv : String → Outcome) :
    ∀ (l : List String) (rs : List Outcome) (a b : ℕ),
      l.foldl (bulk_step conv) (rs, a, b) =
        (rs ++ l.map conv,
         a + (l.map conv).countP (fun o => o.1),
         b + (l.map conv).countP (fun o => !o.1)) := by
  intro l
  induction l with
  | nil => intro rs a b; simp
  | cons x l ih =>
    intro rs a b
    rw [List.foldl_cons]
    by_cases hx : (conv x).1 = true
    · rw [show bulk_step conv (rs, a, b) x = (rs ++ [conv x], a + 1, b) by
        simp [bulk_step, hx]]
      rw [ih]
      simp [List.countP_cons, hx]
      omega
    · rw [show bulk_step conv (rs, a, b) x = (rs ++ [conv x], a, b + 1) by
        simp [bulk_step, hx]]
      rw [ih]
      simp [List.countP_cons, hx]
      omega

/-- Source `process_pdfs_bulk` (converter lines 124-194).  The thread pool is
modelled by its observable behaviour: `as_completed` yields every submitted
future exactly once in an unspecified order, so the collection loop runs over
a list `completed` that permutes the resolved `pdf_files` (a hypothesis of
the theorems below); `conv` is the `pdf_first_page_to_jpg` closure each
worker runs, and `t` the measured wall-clock time.  A summary without the
`elapsed_time` key has `elapsed_time = none`. -/
def process_pdfs_bulk (fs : FS) (conv : String → Outcome)
    (input_paths : List String) (completed : List String) (t : ℚ) : Summary :=
  let pdf_files := find_pdf_files fs input_paths
  if pdf_files = [] then
    { total := 0, successful := 0, failed := 0, results := [], elapsed_time := none }
  else
    let st := completed.foldl (bulk_step conv) ([], 0, 0)
    { total := pdf_files.length, successful := st.2.1, failed := st.2.2,
      results := st.1, elapsed_time := some t }

/-- Core counting property of a batch run, shared by several theorems below. -/
theorem bulk_counts (fs : FS) (conv : String → Outcome)
    (input_paths completed : List String) (t : ℚ)
    (hperm : completed.Perm (find_pdf_files fs input_paths)) :
    (process_pdfs_bulk fs conv input_paths completed t).total
        = (find_pdf_files fs input_paths).length ∧
    (process_pdfs_bulk fs conv input_paths completed t).successful
        = (find_pdf_files fs input_paths).countP (fun f => (conv f).1) ∧
    (process_pdfs_bulk fs conv input_paths completed t).failed
        = (find_pdf_files fs input_paths).countP (fun f => !(conv f).1) ∧
    (process_pdfs_bulk fs conv input_paths completed t).results.length
        = (find_pdf_files fs input_paths).length := by
  by_cases hempty : find_pdf_files fs input_paths = []
  · simp only [process_pdfs_bulk, hempty, if_pos]
    simp [hempty]
  · simp only [process_pdfs_bulk]
    rw [if_neg hempty, bulk_step_foldl]
    refine ⟨rfl, ?_, ?_, ?_⟩
    · show 0 + (completed.map conv).countP (fun o => o.1) = _
      rw [Nat.zero_add, List.countP_map]
      exact hperm.countP_eq _
    · show 0 + (completed.map conv).countP (fun o => !o.1) = _
      rw [Nat.zero_add, List.countP_map]
      exact hperm.countP_eq _
    · show ([] ++ completed.map conv).length = _
      rw [List.nil_append, List.length_map]
      exact hperm.length_eq

/-- Successes and failures partition the resolved files. -/
theorem countP_succ_add_countP_fail (conv : String → Outcome) (l : List String) :
    l.countP (fun f => (conv f).1) + l.countP (fun f => !(conv f).1) = l.length := by
  have h := List.length_eq_countP_add_countP (fun f => (conv f).1) l
  have hpred : (fun f => decide ¬((fun g => (conv g).1) f = true))
      = (fun f : String => !(conv f).1) := by
    funext f
    simp
  rw [hpred] at h
  omega

/-- C1. For a batch over `N` resolved inputs of which `K` fail, the summary
has `total = N`, `successful = N - K`, `failed = K`, and `N` collected
results (hence `successful + failed = total`). -/
theorem process_pdfs_bulk_counts (fs : FS) (conv : String → Outcome)
    (input_paths completed : List String) (t : ℚ)
    (hperm : completed.Perm (find_pdf_files fs input_paths)) :
    (process_pdfs_bulk fs conv input_paths completed t).total
        = (find_pdf_files fs input_paths).length ∧
    (process_pdfs_bulk fs conv input_paths completed t).successful
        = (find_pdf_files fs input_paths).length
          - (find_pdf_files fs input_paths).countP (fun f => !(conv f).1) ∧
    (process_pdfs_bulk fs conv input_paths completed t).failed
        = (find_pdf_files fs input_paths).countP (fun f => !(conv f).1) ∧
    (process_pdfs_bulk fs conv input_paths completed t).results.length
        = (find_pdf_files fs input_paths).length := by
  obtain ⟨h1, h2, h3, h4⟩ := bulk_counts fs conv input_paths completed t hperm
  have hpart := countP_succ_add_countP_fail conv (find_pdf_files fs input_paths)
  exact ⟨h1, by omega, h3, h4⟩

/-- A filesystem holding exactly the files `a.pdf` and `b.pdf`. -/
def fs2 : FS where
  isFile := fun p => p == "a.pdf" || p == "b.pdf"
  isDir := fun _ => false
  rglobPdf := fun _ => []
  rglobPDF := fun _ => []
  glob := fun _ => []

/-- A conversion in which `a.pdf` succeeds and everything else fails. -/
def conv2 : String → Outcome :=
  fun p => if p == "a.pdf" then (true, p, "a.jpg") else (false, p, "boom")

/-- Witness for C1: two resolved files, one failing, collected in reverse
completion order: `total = 2`, `successful = 1`, `failed = 1`, two results. -/
theorem process_pdfs_bulk_counts_witness :
    (process_pdfs_bulk fs2 conv2 ["a.pdf", "b.pdf"] ["b.pdf", "a.pdf"] 1).total = 2 ∧
    (process_pdfs_bulk fs2 conv2 ["a.pdf", "b.pdf"] ["b.pdf", "a.pdf"] 1).successful = 1 ∧
    (process_pdfs_bulk fs2 conv2 ["a.pdf", "b.pdf"] ["b.pdf", "a.pdf"] 1).failed = 1 ∧
    (process_pdfs_bulk fs2 conv2 ["a.pdf", "b.pdf"] ["b.pdf", "a.pdf"] 1).results.length = 2 := by
  obtain ⟨h1, h2, h3, h4⟩ :=
    process_pdfs_bulk_counts fs2 conv2 ["a.pdf", "b.pdf"] ["b.pdf", "a.pdf"] 1 (by decide)
  refine ⟨?_, ?_, ?_, ?_⟩
  · rw [h1]; decide
  · rw [h2]; decide
  · rw [h3]; decide
  · rw [h4]; decide

/-- A filesystem with no files, directories, or glob matches at all. -/
def fsEmpty : FS where
  isFile := fun _ => false
  isDir := fun _ => false
  rglobPdf := fun _ => []
  rglobPDF := fun _ => []
  glob := fun _ => []

/-- Counterexample to C7: the summary returned for an empty resolution
(converter line 144) carries no `elapsed_time` key, while the claim says all
`BatchSummary` fields including `elapsed_time` are present. -/
theorem process_pdfs_bulk_empty_no_elapsed :
    (process_pdfs_bulk fsEmpty (fun p => (false, p, "")) [] [] 0).elapsed_time.isSome
      = false := rfl

/-- C7 amended.  When the inputs resolve to no PDF files, the orchestrator
returns immediately — no worker pool, no collection loop — with the
zero-valued summary `{total: 0, successful: 0, failed: 0, results: []}`,
which lacks the `elapsed_time` key. -/
theorem process_pdfs_bulk_empty (fs : FS) (conv : String → Outcome)
    (input_paths : List String) (t : ℚ)
    (hempty : find_pdf_files fs input_paths = []) :
    process_pdfs_bulk fs conv input_paths [] t =
      { total := 0, successful := 0, failed := 0, results := [],
        elapsed_time := none } := by
  simp only [process_pdfs_bulk, hempty, if_pos]

/-- Witness for the amended C7 on the empty filesystem. -/
theorem process_pdfs_bulk_empty_witness :
    process_pdfs_bulk fsEmpty (fun p => (false, p, "")) [] [] 0 =
      { total := 0, successful := 0, failed := 0, results := [],
        elapsed_time := none } :=
  process_pdfs_bulk_empty fsEmpty (fun p => (false, p, "")) [] 0 rfl

/-- Source `main` lines 278-285: after the batch, `sys.exit(1)` exactly when
`summary.failed > 0`; otherwise `main` returns normally and the process
exits 0. -/
def cli_exit_code (s : Summary) : ℕ := if 0 < s.failed then 1 else 0

/-- C9. The CLI exits 0 when no file failed (in particular on full success
with at least one success), exits 1 when any file failed, and uses no
distinct exit code when nothing resolved — the empty batch also exits 0. -/
theorem cli_exit_codes (fs : FS) (conv : String → Outcome)
    (input_paths completed : List String) (t : ℚ) :
    ((process_pdfs_bulk fs conv input_paths completed t).failed = 0 →
      cli_exit_code (process_pdfs_bulk fs conv input_paths completed t) = 0) ∧
    (0 < (process_pdfs_bulk fs conv input_paths completed t).failed →
      cli_exit_code (process_pdfs_bulk fs conv input_paths completed t) = 1) ∧
    (find_pdf_files fs input_paths = [] →
      cli_exit_code (process_pdfs_bulk fs conv input_paths completed t) = 0) := by
  refine ⟨fun h0 => ?_, fun h1 => ?_, fun hempty => ?_⟩
  · unfold cli_exit_code
    rw [if_neg]
    omega
  · unfold cli_exit_code
    rw [if_pos h1]
  · unfold cli_exit_code
    simp only [process_pdfs_bulk, hempty, if_pos]
    decide

/-- Witness for C9: the one-failure batch exits 1, the empty batch exits 0. -/
theorem cli_exit_codes_witness :
    cli_exit_code (process_pdfs_bulk fs2 conv2 ["a.pdf", "b.pdf"] ["b.pdf", "a.pdf"] 1) = 1 ∧
    cli_exit_code (process_pdfs_bulk fsEmpty conv2 [] [] 0) = 0 :=
  ⟨(cli_exit_codes fs2 conv2 ["a.pdf", "b.pdf"] ["b.pdf", "a.pdf"] 1).2.1 (by decide),
   (cli_exit_codes fsEmpty conv2 [] [] 0).2.2 rfl⟩

/-- The out-of-range-DPI test of `main` lines 266-267.  It only prints
`Warning: DPI should typically be between 72 and 600` — it does not abort. -/
def cli_dpi_warning (dpi : ℤ) : Bool := decide (dpi < 72) || decide (600 < dpi)

/-- Outcome of the CLI parameter validation, `main` lines 265-275:
`rejected msg` is the early `return` after printing `msg`, before
`process_pdfs_bulk` is reached; `ran warned` proceeds to the batch, `warned`
recording whether the DPI warning was printed on the way. -/
inductive CliAction where
  | rejected (msg : String)
  | ran (warned : Bool)
deriving DecidableEq

/-- Source `main` lines 265-275 as a function of the parsed numeric arguments. -/
def cli_validate (dpi quality max_workers : ℤ) : CliAction :=
  if quality < 1 ∨ 100 < quality then
    .rejected "Error: Quality must be between 1 and 100"
  else if max_workers < 1 ∨ 16 < max_workers then
    .rejected "Error: Workers should be between 1 and 16"
  else
    .ran (cli_dpi_warning dpi)

/-- Source `main` lines 265-285: parameter validation, then the batch run; `none`
models the early `return` with no input resolution and no conversion work. -/
def cli_run (fs : FS) (conv : String → Outcome) (input_paths completed : List String)
    (t : ℚ) (dpi quality max_workers : ℤ) : Option Summary :=
  match cli_validate dpi quality max_workers with
  | .rejected _ => none
  | .ran _ => some (process_pdfs_bulk fs conv input_paths completed t)

/-- The parameter validation of `upload_files` (web_app lines 69-75): `some
msg` is the 400 JSON error response, `none` passes.  The float literals `0.1`
and `2.0` are the exact rationals here. -/
def web_validate (dpi quality : ℤ) (scale_factor : ℚ) : Option String :=
  if ¬(72 ≤ dpi ∧ dpi ≤ 600) then some "DPI must be between 72 and 600"
  else if ¬(1 ≤ quality ∧ quality ≤ 100) then some "Quality must be between 1 and 100"
  else if ¬(1/10 ≤ scale_factor ∧ scale_factor ≤ 2) then
    some "Scale factor must be between 0.1 and 2.0"
  else none

/-- Counterexample to C8: invoking the CLI with `dpi = 1000` — outside
`[72, 600]` — and otherwise valid parameters is not rejected: the batch runs
(here over the empty filesystem), with only a warning printed. -/
theorem cli_dpi_not_rejected :
    cli_run fsEmpty (fun p => (false, p, "")) [] [] 0 1000 95 4 =
      some { total := 0, successful := 0, failed := 0, results := [],
             elapsed_time := none } := rfl

/-- C8 amended.  The web handler rejects dpi, quality, and scale_factor
outside their accepted ranges with a 400 before any file is saved or
converted.  The CLI rejects out-of-range quality and workers before
resolving inputs, but an out-of-range dpi only triggers a warning: the batch
still runs. -/
theorem entry_param_validation (fs : FS) (conv : String → Outcome)
    (input_paths completed : List String) (t : ℚ)
    (dpi quality workers dpiW qualityW : ℤ) (sW : ℚ) :
    ((quality < 1 ∨ 100 < quality) →
      cli_run fs conv input_paths completed t dpi quality workers = none) ∧
    (¬(quality < 1 ∨ 100 < quality) → (workers < 1 ∨ 16 < workers) →
      cli_run fs conv input_paths completed t dpi quality workers = none) ∧
    (¬(quality < 1 ∨ 100 < quality) → ¬(workers < 1 ∨ 16 < workers) →
      cli_run fs conv input_paths completed t dpi quality workers
        = some (process_pdfs_bulk fs conv input_paths completed t)) ∧
    ((dpiW < 72 ∨ 600 < dpiW) → web_validate dpiW qualityW sW ≠ none) ∧
    ((72 ≤ dpiW ∧ dpiW ≤ 600) → (qualityW < 1 ∨ 100 < qualityW) →
      web_validate dpiW qualityW sW ≠ none) ∧
    ((72 ≤ dpiW ∧ dpiW ≤ 600) → (1 ≤ qualityW ∧ qualityW ≤ 100) →
      (sW < 1/10 ∨ 2 < sW) → web_validate dpiW qualityW sW ≠ none) := by
  refine ⟨fun hq => ?_, fun hq hw => ?_, fun hq hw => ?_,
    fun hd => ?_, fun hd hq => ?_, fun hd hq hs => ?_⟩
  · unfold cli_run cli_validate
    rw [if_pos hq]
  · unfold cli_run cli_validate
    rw [if_neg hq, if_pos hw]
  · unfold cli_run cli_validate
    rw [if_neg hq, if_neg hw]
  · unfold web_validate
    rw [if_pos (by omega : ¬(72 ≤ dpiW ∧ dpiW ≤ 600))]
    exact Option.some_ne_none _
  · unfold web_validate
    rw [if_neg (by omega : ¬¬(72 ≤ dpiW ∧ dpiW ≤ 600)),
      if_pos (by omega : ¬(1 ≤ qualityW ∧ qualityW ≤ 100))]
    exact Option.some_ne_none _
  · unfold web_validate
    rw [if_neg (by omega : ¬¬(72 ≤ dpiW ∧ dpiW ≤ 600)),
      if_neg (by omega : ¬¬(1 ≤ qualityW ∧ qualityW ≤ 100)),
      if_pos (?_ : ¬(1/10 ≤ sW ∧ sW ≤ 2))]
    · exact Option.some_ne_none _
    · rcases hs with hs | hs
      · exact fun hc => absurd hc.1 (not_le.mpr hs)
      · exact fun hc => absurd hc.2 (not_le.mpr hs)

/-- Witness for the amended C8: quality 0 is rejected by the CLI; dpi 1000 is
rejected by the web handler. -/
theorem entry_param_validation_witness :
    cli_run fsEmpty (fun p => (false, p, "")) [] [] 0 200 0 4 = none ∧
    web_validate 1000 95 (6/10) ≠ none := by
  have h := entry_param_validation fsEmpty (fun p => (false, p, "")) [] [] 0
    200 0 4 1000 95 (6/10)
  exact ⟨h.1 (by norm_num), h.2.2.2.1 (by norm_num)⟩

/-- Python `filename.rsplit(chr(46), 1)[1]`: the substring after the last dot of the
filename (total here; the handler only consults it under the guard that a dot
is present). -/
def afterLastDot (fn : String) : String := ⟨afterLast '.' fn.data⟩

/-- Source `allowed_file` (web_app lines 27-29): the name contains a dot and the
part after the last dot lowercases to a member of `ALLOWED_EXTENSIONS =
set([pdf])`. -/
def allowed_file (filename : String) : Bool :=
  filename.data.contains '.' && (strLower (afterLastDot filename) == "pdf")

/-- One entry of the `results` array of the upload response. -/
structure ResultEntry where
  filename : String
  status : String
  payload : String
deriving DecidableEq

/-- The success JSON response of `upload_files` (web_app lines 117-122). -/
structure UploadResponse where
  success : Bool
  results : List ResultEntry
  converted_count : ℕ
  total_count : ℕ
deriving DecidableEq

def UPLOAD_FOLDER : String := "uploads"

def OUTPUT_FOLDER : String := "outputs"

/-- Source `upload_files` (web_app lines 48-122).  `files` is the list of uploaded
filenames (a `FileStorage` is always truthy, so the Python guard `if file and
allowed_file(...)` reduces to the extension check); `sf` is werkzeug's
`secure_filename`; `.error (msg, code)` is the error JSON response with that
HTTP status.  A file failing `allowed_file` is skipped: not saved, not
converted, absent from `results` and `total_count`. -/
def upload_files (env : ConvEnv) (sf : String → String) (files : List String)
    (dpi quality : ℤ) (scale_factor : ℚ) : Except (String × ℕ) UploadResponse :=
  if files = [] ∨ files.all (fun f => f == "") then .error ("No files selected", 400)
  else
    match web_validate dpi quality scale_factor with
    | some msg => .error (msg, 400)
    | none =>
      let uploaded_files := (files.filter allowed_file).map
        (fun f => UPLOAD_FOLDER ++ "/" ++ sf f)
      if uploaded_files = [] then .error ("No valid PDF files uploaded", 400)
      else
        let outcomes := uploaded_files.map (fun pdf_path =>
          pdf_first_page_to_jpg env pdf_path (some OUTPUT_FOLDER) dpi quality scale_factor)
        .ok { success := true,
              results := outcomes.map (fun r =>
                if r.1 then
                  { filename := pathName r.2.1, status := "success",
                    payload := pathName r.2.2 }
                else
                  { filename := pathName r.2.1, status := "error", payload := r.2.2 }),
              converted_count := outcomes.countP (fun r => r.1),
              total_count := uploaded_files.length }

/-- C10. Files rejected by `allowed_file` (no dot, or final extension other
than pdf case-insensitively) are silently skipped: the response counts and
lists only the accepted files — one result entry per accepted file and
`total_count` equal to their number — and when every uploaded file is
skipped the handler answers with a 400 error instead of a result. -/
theorem upload_skips_disallowed (env : ConvEnv) (sf : String → String)
    (files : List String) (dpi quality : ℤ) (s : ℚ)
    (hparams : web_validate dpi quality s = none) :
    ((∀ f ∈ files, allowed_file f = false) →
      ∃ msg, upload_files env sf files dpi quality s = .error (msg, 400)) ∧
    (∀ resp, upload_files env sf files dpi quality s = .ok resp →
      resp.total_count = files.countP allowed_file ∧
      resp.results.length = resp.total_count) := by
  constructor
  · intro hall
    by_cases hsel : files = [] ∨ files.all (fun f => f == "") = true
    · refine ⟨"No files selected", ?_⟩
      unfold upload_files
      rw [if_pos hsel]
    · refine ⟨"No valid PDF files uploaded", ?_⟩
      unfold upload_files
      rw [if_neg hsel, hparams]
      have hfil : files.filter allowed_file = [] :=
        List.filter_eq_nil_iff.mpr (fun f hf => by rw [hall f hf]; exact Bool.false_ne_true)
      rw [if_pos (by rw [hfil]; rfl)]
  · intro resp hresp
    unfold upload_files at hresp
    split at hresp
    · cases hresp
    rw [hparams] at hresp
    dsimp only at hresp
    split at hresp
    · cases hresp
    cases hresp
    constructor
    · show ((files.filter allowed_file).map _).length = _
      rw [List.length_map, ← List.countP_eq_length_filter]
    · simp only [List.length_map]

/-- Witness for C10: the single upload `a.txt` is skipped and the handler
answers 400. -/
theorem upload_skips_disallowed_witness :
    ∃ msg, upload_files envMissing (fun f => f) ["a.txt"] 200 95 (6/10)
      = .error (msg, 400) :=
  (upload_skips_disallowed envMissing (fun f => f) ["a.txt"] 200 95 (6/10)
    (by norm_num [web_validate])).1 (by decide)

end PdfToJpg
